import Mathlib

/-
Shallow embedding of the jsoniter reflection-based decoder engine
(file feature_reflect.go of the Go repository), together with proofs
about its decoder compiler, decoder cache, composite decoders, the
dynamic Any value and its number scanner.

Conventions of the embedding:
- reflect.Type is modelled by the inductive RType below: it records the
  Go type name (typ.String()) and enough of the shape (Kind and Elem)
  for the compiler's dispatch.  Constructors carrying an element type
  correspond exactly to the kinds on which Go's typ.Elem() is defined
  here (slice, map, pointer).
- Decoder values are modelled by the inductive DecoderV: each decoder
  struct of the Go source is one constructor, carrying the same data
  the Go struct carries (minus function pointers, which are identified
  by the constructor itself; registered funcDecoder values carry a
  numeric identity).
- Go errors are modelled by Except String; machine integers by Nat/Int
  with explicit range checks where the source checks them; float64
  values produced by strconv.ParseFloat are modelled as exact rationals
  (the decimal literals appearing in the claims are exactly
  representable, so no binary rounding is modelled).
-/

/-- The reflect.Kind values this engine dispatches on. -/
inductive RKind where
  | kString | kInt | kInt8 | kInt16 | kInt32 | kInt64
  | kUint | kUint8 | kUint16 | kUint32 | kUint64
  | kFloat32 | kFloat64 | kBool | kInterface
  | kChan | kFunc | kUnsafePointer
  deriving DecidableEq, Repr

/-- Model of reflect.Type: the name is the result of typ.String(); the
constructors with an RType argument model the kinds whose Elem() the
source consults (slice, map, ptr).  Scalar kinds, interface kind and
unsupported kinds (chan, func, ...) carry no element and live in the
prim constructor; struct types carry only their name (the struct
decoder compiler lives outside the translated source file). -/
inductive RType where
  | prim (name : String) (kind : RKind)
  | structT (name : String)
  | slice (name : String) (elem : RType)
  | mapT (name : String) (key : RType) (elem : RType)
  | ptr (name : String) (elem : RType)
  deriving DecidableEq, Repr

/-- typ.String() of the Go reflect package. -/
def RType.name : RType → String
  | .prim n _ => n
  | .structT n => n
  | .slice n _ => n
  | .mapT n _ _ => n
  | .ptr n _ => n

/-- Model of the Decoder interface: one constructor per decoder struct
of the source.  funcDecoder values registered through
RegisterTypeDecoder are told apart by a numeric identity. -/
inductive DecoderV where
  | funcD (id : Nat)
  | anyD
  | stringD | intD | int8D | int16D | int32D | int64D
  | uintD | uint8D | uint16D | uint32D | uint64D
  | float32D | float64D | boolD
  | interfaceD
  | structD (typ : RType)
  | sliceD (typ : RType) (elemT : RType) (elem : DecoderV)
  | mapD (typ : RType) (elemT : RType) (elem : DecoderV)
  | optionalD (valueType : RType) (valueDecoder : DecoderV)
  deriving DecidableEq, Repr

/-- The typeDecoders registry (map from type name to registered
decoder), threaded as an explicit argument since the Go source keeps it
in a package-level variable. -/
def Registry : Type := String → Option DecoderV

/-- prefix.addTo of the source: error annotation with a breadcrumb. -/
def addPrefixTo (p : String) : Except String DecoderV → Except String DecoderV
  | .error e => .error (p ++ ": " ++ e)
  | .ok d => .ok d

/-- Modelled from the spec: decoderOfStruct is not part of the
translated source file.  Per the spec, a struct shape always compiles
(a struct with zero effective fields is legal); the per-field
compilation it performs is not needed by any claim, so the resulting
struct decoder carries only the type. -/
def decoderOfStruct (typ : RType) : Except String DecoderV :=
  .ok (.structD typ)

/-- decoderOfPtr of the source: dispatch on the pointee type.  The
"jsoniter.Any" name check comes first, then the typeDecoders registry
lookup, then the Kind switch.  The source's slice, map and optional
branches call the helper functions decoderOfSlice, decoderOfMap and
decoderOfOptional; their bodies are inlined here so that the recursion
is structural (the helpers are defined below exactly as in the source,
and the bridge lemmas decoderOfPtr_slice_branch, decoderOfPtr_map_branch
and decoderOfPtr_optional_branch prove the inlining faithful). -/
def decoderOfPtr (reg : Registry) (typ : RType) : Except String DecoderV :=
  if typ.name = "jsoniter.Any" then .ok .anyD
  else
    match reg typ.name with
    | some typeDecoder => .ok typeDecoder
    | none =>
      match typ with
      | .prim _ k =>
        match k with
        | .kString => .ok .stringD
        | .kInt => .ok .intD
        | .kInt8 => .ok .int8D
        | .kInt16 => .ok .int16D
        | .kInt32 => .ok .int32D
        | .kInt64 => .ok .int64D
        | .kUint => .ok .uintD
        | .kUint8 => .ok .uint8D
        | .kUint16 => .ok .uint16D
        | .kUint32 => .ok .uint32D
        | .kUint64 => .ok .uint64D
        | .kFloat32 => .ok .float32D
        | .kFloat64 => .ok .float64D
        | .kBool => .ok .boolD
        | .kInterface => .ok .interfaceD
        | _ => .error ("unsupported type: " ++ typ.name)
      | .structT n => decoderOfStruct (.structT n)
      | .slice n e =>
        addPrefixTo "[slice]"
          (match decoderOfPtr reg e with
           | .error err => .error err
           | .ok decoder => .ok (.sliceD (.slice n e) e decoder))
      | .mapT n k e =>
        addPrefixTo "[map]"
          (match decoderOfPtr reg e with
           | .error err => .error err
           | .ok decoder => .ok (.mapD (.mapT n k e) e decoder))
      | .ptr _ e =>
        addPrefixTo "[optional]"
          (match decoderOfPtr reg e with
           | .error err => .error err
           | .ok decoder => .ok (.optionalD e decoder))

/-- typ.Elem() of the Go reflect package, defined on the kinds used
here that have an element type; none models the panic on any other
kind. -/
def typeElem : RType → Option RType
  | .slice _ e => some e
  | .mapT _ _ e => some e
  | .ptr _ e => some e
  | _ => none

/-- decoderOfOptional of the source (called on typ.Elem()). -/
def decoderOfOptional (reg : Registry) (typ : RType) : Except String DecoderV :=
  match decoderOfPtr reg typ with
  | .error e => .error e
  | .ok decoder => .ok (.optionalD typ decoder)

/-- decoderOfSlice of the source: compile the element decoder
(typ.Elem()) and wrap it in a sliceDecoder.  The catch-all branch
models the reflect panic of Elem() on a non-container type and is
unreachable from decoderOfPtr. -/
def decoderOfSlice (reg : Registry) (typ : RType) : Except String DecoderV :=
  match typeElem typ with
  | some e =>
    match decoderOfPtr reg e with
    | .error err => .error err
    | .ok decoder => .ok (.sliceD typ e decoder)
  | none => .error "reflect: Elem of invalid type"

/-- decoderOfMap of the source: compile the VALUE decoder (typ.Elem())
and wrap it in a mapDecoder; the key type is never inspected.  The
catch-all branch models the reflect panic of Elem() on a non-container
type and is unreachable from decoderOfPtr. -/
def decoderOfMap (reg : Registry) (typ : RType) : Except String DecoderV :=
  match typeElem typ with
  | some e =>
    match decoderOfPtr reg e with
    | .error err => .error err
    | .ok decoder => .ok (.mapD typ e decoder)
  | none => .error "reflect: Elem of invalid type"

/-- decoderOfType of the source: only a pointer root is accepted. -/
def decoderOfType (reg : Registry) (typ : RType) : Except String DecoderV :=
  match typ with
  | .ptr _ e => addPrefixTo "ptr" (decoderOfPtr reg e)
  | _ => .error "expect ptr"

/-- Lookup in an association list modelling a Go map (first match; maps
built by mapAssign keep keys unique, so first match is the only one). -/
def mapLookup {α β : Type} [DecidableEq α] : List (α × β) → α → Option β
  | [], _ => none
  | (k2, v) :: rest, k => if k2 = k then some v else mapLookup rest k

/-- Assignment m[k] = v on an association list modelling a Go map:
replaces the binding in place or appends a new one. -/
def mapAssign {α β : Type} [DecidableEq α] : List (α × β) → α → β → List (α × β)
  | [], k, v => [(k, v)]
  | (k2, v2) :: rest, k, v =>
    if k2 = k then (k2, v) :: rest else (k2, v2) :: mapAssign rest k v

/-- The Any value of the source: a closed variant over null, boolean,
signed-64 integer, unsigned-64 integer, float-64 (exact rational in the
model), text, ordered sequence and text-keyed mapping. -/
inductive AnyV where
  | vNull
  | vBool (b : Bool)
  | vInt (n : Int)
  | vUint (n : Nat)
  | vFloat (q : ℚ)
  | vString (s : String)
  | vArray (xs : List AnyV)
  | vObject (fs : List (String × AnyV))

/-- Decimal digits to a natural number, most significant first. -/
def digitsToNat (acc : Nat) : List Char → Nat
  | [] => acc
  | c :: cs => digitsToNat (acc * 10 + (c.toNat - '0'.toNat)) cs

/-- One optional leading sign: returns (negative, rest). -/
def splitSign : List Char → Bool × List Char
  | '+' :: cs => (false, cs)
  | '-' :: cs => (true, cs)
  | cs => (false, cs)

/-- Modelled from the Go standard library: strconv.ParseUint(s, 10, 64).
No sign is permitted; the input must be nonempty decimal digits and the
value must fit in 64 bits. -/
def parseUint64 (s : String) : Except String Nat :=
  let cs := s.data
  if cs = [] then .error "strconv.ParseUint: invalid syntax"
  else if cs.all Char.isDigit then
    let v := digitsToNat 0 cs
    if v < 2 ^ 64 then .ok v else .error "strconv.ParseUint: value out of range"
  else .error "strconv.ParseUint: invalid syntax"

/-- Modelled from the Go standard library: strconv.ParseInt(s, 10, 64).
One optional sign, then nonempty decimal digits; the value must lie in
the signed 64-bit range. -/
def parseInt64 (s : String) : Except String Int :=
  let p := splitSign s.data
  let cs := p.2
  if cs = [] then .error "strconv.ParseInt: invalid syntax"
  else if cs.all Char.isDigit then
    let v : Int := if p.1 then -(digitsToNat 0 cs : Int) else (digitsToNat 0 cs : Int)
    if -(2 ^ 63) ≤ v ∧ v ≤ 2 ^ 63 - 1 then .ok v
    else .error "strconv.ParseInt: value out of range"
  else .error "strconv.ParseInt: invalid syntax"

/-- The exponent part of a decimal float literal, applied to the
already-parsed mantissa. -/
def parseExpPart (base : ℚ) (cs : List Char) : Except String ℚ :=
  let p := splitSign cs
  let ed := p.2.takeWhile Char.isDigit
  let rest := p.2.dropWhile Char.isDigit
  if ed = [] ∨ rest ≠ [] then .error "strconv.ParseFloat: invalid syntax"
  else
    let e : Nat := digitsToNat 0 ed
    .ok (if p.1 then base / (10 : ℚ) ^ e else base * (10 : ℚ) ^ e)

/-- Modelled from the Go standard library: strconv.ParseFloat(s, 64),
restricted to the decimal forms the number scanner can produce, with
the value represented as an exact rational (binary64 rounding is not
modelled; the literals appearing in the claims are exactly
representable). -/
def parseFloat64 (s : String) : Except String ℚ :=
  let p := splitSign s.data
  let ip := p.2.takeWhile Char.isDigit
  let cs1 := p.2.dropWhile Char.isDigit
  let hasDot := match cs1 with | '.' :: _ => true | _ => false
  let cs2 := if hasDot then cs1.tail else cs1
  let fp := cs2.takeWhile Char.isDigit
  let cs3 := cs2.dropWhile Char.isDigit
  if ip = [] ∧ fp = [] then .error "strconv.ParseFloat: invalid syntax"
  else
    let mantNum : Int := (if p.1 then -1 else 1) * (digitsToNat 0 (ip ++ fp) : Int)
    let base : ℚ := (mantNum : ℚ) / (10 : ℚ) ^ fp.length
    match cs3 with
    | [] => .ok base
    | 'e' :: rest => parseExpPart base rest
    | 'E' :: rest => parseExpPart base rest
    | _ => .error "strconv.ParseFloat: invalid syntax"

/-- The Iterator's observable state: the current buffer, the head
cursor, and the shared error slot.  A single in-memory buffer models
string input (the refill primitive then reports exhaustion). -/
structure Iter where
  buf : List Char
  head : Nat
  error : Option String
  deriving DecidableEq, Repr

/-- An iterator freshly positioned on an in-memory document. -/
def mkIter (s : String) : Iter :=
  { buf := s.data, head := 0, error := none }

/-- Modelled from the spec: the buffer-refill primitive of the token
source for single-buffer (string) input: no more input is ever
available, and exhaustion is recorded as an EOF error in the shared
error slot. -/
def loadMore (it : Iter) : Bool × Iter :=
  (false, { it with error := some "EOF" })

/-- Modelled from the spec: errors are reported on the shared error
slot; an already-present error is kept (first error wins). -/
def reportError (it : Iter) (operation msg : String) : Iter :=
  match it.error with
  | some _ => it
  | none => { it with error := some (operation ++ ": " ++ msg) }

/-- The scanning loop of readNumber over the remaining buffer
(iter.buf from index i): accumulates literal characters and the
foundFloat / foundNegative flags exactly as the source's switch does;
returns the accumulated literal, the two flags, the index of the
terminating character, and whether a terminating (non-numeric)
character was found before the buffer ran out. -/
def scanNumLoop : List Char → Nat → List Char → Bool → Bool →
    List Char × Bool × Bool × Nat × Bool
  | [], i, str, ff, fn => (str, ff, fn, i, false)
  | c :: rest, i, str, ff, fn =>
    if c = '-' then scanNumLoop rest (i + 1) (str ++ [c]) ff true
    else if c = '+' ∨ c.isDigit then scanNumLoop rest (i + 1) (str ++ [c]) ff fn
    else if c = '.' ∨ c = 'e' ∨ c = 'E' then scanNumLoop rest (i + 1) (str ++ [c]) true fn
    else (str, ff, fn, i, true)

/-- readNumber of the source: scan the literal, then classify once from
the scan's flags (float if '.', 'e' or 'E' was seen; else signed if '-'
was seen; else unsigned) and run the matching 64-bit parser, writing a
parser failure to the error slot.  When the literal runs to the end of
the buffer the head cursor is not advanced and the failed refill leaves
an EOF error, which the post-scan check tolerates, exactly as the
source does. -/
def readNumber (it : Iter) : Option AnyV × Iter :=
  match scanNumLoop (it.buf.drop it.head) it.head [] false false with
  | (str, foundFloat, foundNegative, newHead, hitDefault) =>
    let it1 := if hitDefault then { it with head := newHead } else (loadMore it).2
    if it1.error ≠ none ∧ it1.error ≠ some "EOF" then (none, it1)
    else
      let number : String := String.mk str
      if foundFloat then
        match parseFloat64 number with
        | .error e => (none, { it1 with error := some e })
        | .ok v => (some (.vFloat v), it1)
      else if foundNegative then
        match parseInt64 number with
        | .error e => (none, { it1 with error := some e })
        | .ok v => (some (.vInt v), it1)
      else
        match parseUint64 number with
        | .error e => (none, { it1 with error := some e })
        | .ok v => (some (.vUint v), it1)

/-- The value kinds reported by the token source's peek. -/
inductive ValueKind where
  | vInvalid | vString | vNumber | vNull | vBool | vArray | vObject
  deriving DecidableEq, Repr

/-- Modelled from the spec: next-value-kind(), a non-consuming peek
classifying the next value by its first character. -/
def whatIsNext (it : Iter) : ValueKind :=
  match it.buf[it.head]? with
  | none => .vInvalid
  | some c =>
    if c = '"' then .vString
    else if c = 'n' then .vNull
    else if c = 't' ∨ c = 'f' then .vBool
    else if c = '-' ∨ c.isDigit then .vNumber
    else if c = '[' then .vArray
    else if c = '{' then .vObject
    else .vInvalid

/-- Modelled from the spec: read-null() of the token source: consumes a
null literal when one is next and reports whether it did. -/
def readNil (it : Iter) : Bool × Iter :=
  if (it.buf.drop it.head).take 4 = ['n', 'u', 'l', 'l'] then
    (true, { it with head := it.head + 4 })
  else (false, it)

/-- Characters of a quoted string up to the closing quote: returns the
content, the number of characters consumed after the opening quote, and
whether the closing quote was found. -/
def readStringLoop : List Char → List Char → List Char × Nat × Bool
  | [], acc => (acc, 0, false)
  | c :: rest, acc =>
    if c = '"' then (acc, 1, true)
    else
      let r := readStringLoop rest (acc ++ [c])
      (r.1, r.2.1 + 1, r.2.2)

/-- Modelled from the spec: read-string() of the token source (escape
sequences are not needed by any claim and are not modelled). -/
def readString (it : Iter) : String × Iter :=
  match it.buf[it.head]? with
  | some '"' =>
    let r := readStringLoop (it.buf.drop (it.head + 1)) []
    if r.2.2 then (String.mk r.1, { it with head := it.head + 1 + r.2.1 })
    else ("", reportError it "ReadString" "incomplete string")
  | _ => ("", reportError it "ReadString" "expects quote")

/-- Modelled from the spec: read-bool() of the token source. -/
def readBool (it : Iter) : Bool × Iter :=
  if (it.buf.drop it.head).take 4 = ['t', 'r', 'u', 'e'] then
    (true, { it with head := it.head + 4 })
  else if (it.buf.drop it.head).take 5 = ['f', 'a', 'l', 's', 'e'] then
    (false, { it with head := it.head + 5 })
  else (false, reportError it "ReadBool" "expects true or false")

/-- Modelled from the spec: begin-array / next-array-element of the
token source: true means an element follows, false means the array is
exhausted. -/
def readArray (it : Iter) : Bool × Iter :=
  match it.buf[it.head]? with
  | some '[' =>
    match it.buf[it.head + 1]? with
    | some ']' => (false, { it with head := it.head + 2 })
    | _ => (true, { it with head := it.head + 1 })
  | some ',' => (true, { it with head := it.head + 1 })
  | some ']' => (false, { it with head := it.head + 1 })
  | _ => (false, reportError it "ReadArray" "expects [ or , or ]")

/-- Modelled from the spec: one object field name followed by the colon
separator. -/
def readObjectField (it : Iter) : String × Iter :=
  let r := readString it
  let it1 := r.2
  match it1.buf[it1.head]? with
  | some ':' => (r.1, { it1 with head := it1.head + 1 })
  | _ => ("", reportError it1 "readObjectField" "expects :")

/-- Modelled from the spec: begin-object / next-object-field of the
token source: returns the next field name, with the empty string as the
exhaustion sentinel. -/
def readObject (it : Iter) : String × Iter :=
  match it.buf[it.head]? with
  | some '{' =>
    match it.buf[it.head + 1]? with
    | some '}' => ("", { it with head := it.head + 2 })
    | some '"' => readObjectField { it with head := it.head + 1 }
    | _ => ("", reportError it "ReadObject" "expects \x7d or field name")
  | some ',' => readObjectField { it with head := it.head + 1 }
  | some '}' => ("", { it with head := it.head + 1 })
  | _ => ("", reportError it "ReadObject" "expects \x7b or , or \x7d")

/-- Marker used when the recursion fuel runs out; unreachable for
sufficiently large fuel on any concrete document. -/
def outOfFuel (it : Iter) : Iter := { it with error := some "out of fuel" }

/-- The element loop of ReadAny's array branch, parameterized by the
recursive element parser (ReadAny at smaller fuel).  As in the source,
a set error slot after an element parse returns immediately through
the named (nil) return value; otherwise the element's value is
appended and the loop continues. -/
def readAnyArrayLoop (rA : Iter → Option AnyV × Iter) :
    Nat → List AnyV → Iter → Option AnyV × Iter
  | 0, _, it => (none, outOfFuel it)
  | fuel + 1, val, it =>
    let r := readArray it
    if r.1 then
      let e := rA r.2
      if e.2.error.isSome then (none, e.2)
      else readAnyArrayLoop rA fuel (val ++ [e.1.getD .vNull]) e.2
    else (some (.vArray val), r.2)

/-- The field loop of ReadAny's object branch, parameterized by the
recursive element parser: reads field names until the empty sentinel,
assigning each decoded value under its field name (duplicate keys: last
write wins), returning immediately through the nil return value once
an element parse has set the error slot. -/
def readAnyObjectLoop (rA : Iter → Option AnyV × Iter) :
    Nat → List (String × AnyV) → Iter → Option AnyV × Iter
  | 0, _, it => (none, outOfFuel it)
  | fuel + 1, val, it =>
    let f := readObject it
    if f.1 ≠ "" then
      let e := rA f.2
      if e.2.error.isSome then (none, e.2)
      else readAnyObjectLoop rA fuel (mapAssign val f.1 (e.1.getD .vNull)) e.2
    else (some (.vObject val), f.2)

/-- ReadAny of the source, with explicit recursion fuel (the Go
function recurses on the document structure; any concrete document is
handled by sufficiently large fuel).  The null branch returns a null
Any without consuming the token, exactly as the source does. -/
def readAny : Nat → Iter → Option AnyV × Iter
  | 0, it => (none, outOfFuel it)
  | fuel + 1, it =>
    match whatIsNext it with
    | .vString =>
      let r := readString it
      (some (.vString r.1), r.2)
    | .vNumber => readNumber it
    | .vNull => (some .vNull, it)
    | .vBool =>
      let r := readBool it
      (some (.vBool r.1), r.2)
    | .vArray => readAnyArrayLoop (readAny fuel) (fuel + 1) [] it
    | .vObject => readAnyObjectLoop (readAny fuel) (fuel + 1) [] it
    | .vInvalid => (some .vNull, reportError it "ReadAny" "unexpected value type")

/-- The pointer cell the optional decoder's target address designates,
together with the allocator modelling reflect.New: nextAddr is the
next fresh address. -/
structure OptState where
  cell : Option Nat
  nextAddr : Nat
  deriving DecidableEq, Repr

/-- optionalDecoder.decode of the source, parameterized by the wrapped
value decoder's action (valueDecode addr it), since the wrapped decoder
field holds an arbitrary Decoder: on a null token the cell is set to
nil; on a non-null token a nil cell gets a freshly allocated address
that is decoded into and then stored; a populated cell is decoded into
in place. -/
def optionalDecode (valueDecode : Nat → Iter → Iter) (st : OptState) (it : Iter) :
    OptState × Iter :=
  match readNil it with
  | (true, it1) => ({ st with cell := none }, it1)
  | (false, it1) =>
    match st.cell with
    | none =>
      let addr := st.nextAddr
      let it2 := valueDecode addr it1
      ({ cell := some addr, nextAddr := st.nextAddr + 1 }, it2)
    | some addr => (st, valueDecode addr it1)

/-- The global decoder-cache state: every snapshot map ever allocated
(the heap, indexed by allocation order), and the index of the snapshot
the DECODERS pointer currently designates. -/
structure CacheWorld where
  heap : List (List (RType × DecoderV))
  ptrIdx : Nat
  deriving DecidableEq, Repr

/-- Dereference of the DECODERS pointer: the current snapshot map. -/
def currentCache (w : CacheWorld) : List (RType × DecoderV) :=
  w.heap.getD w.ptrIdx []

/-- The copy loop of addDecoderToCache (for k, v := range cache:
copy[k] = v), starting from a fresh empty map. -/
def copyMap (m : List (RType × DecoderV)) : List (RType × DecoderV) :=
  m.foldl (fun acc kv => mapAssign acc kv.1 kv.2) []

/-- addDecoderToCache of the source: read the current snapshot, build a
fresh map equal to the snapshot plus the new entry, allocate it, and
swap the global pointer to it.  The compare-and-swap of the source
cannot lose a race in this sequential model, so the retry loop runs
exactly once. -/
def addDecoderToCache (w : CacheWorld) (cacheKey : RType) (decoder : DecoderV) :
    CacheWorld :=
  let cache := currentCache w
  let cp := mapAssign (copyMap cache) cacheKey decoder
  { heap := w.heap ++ [cp], ptrIdx := w.heap.length }

/-- getDecoderFromCache of the source: a read of the current snapshot. -/
def getDecoderFromCache (w : CacheWorld) (cacheKey : RType) : Option DecoderV :=
  mapLookup (currentCache w) cacheKey

/-- Iterator.Read of the source, parameterized by the execution of a
compiled decoder against the destination (exec), since the decode
methods of compiled decoders live outside the translated file.  The
result is the updated cache world and iterator; none models the panic
of typ.Elem() on a root type without an element type. -/
def iterRead (reg : Registry) (exec : DecoderV → Iter → Iter)
    (w : CacheWorld) (typ : RType) (it : Iter) : Option (CacheWorld × Iter) :=
  match typeElem typ with
  | none => none
  | some cacheKey =>
    match getDecoderFromCache w cacheKey with
    | some cachedDecoder => some (w, exec cachedDecoder it)
    | none =>
      match decoderOfType reg typ with
      | .error err => some (w, { it with error := some err })
      | .ok decoder => some (addDecoderToCache w cacheKey decoder, exec decoder it)

/-- The empty typeDecoders registry (the state after init or
CleanDecoders). -/
def emptyRegistry : Registry := fun _ => none

/-- The characters the number scanner's switch accumulates. -/
def numericChar (c : Char) : Bool :=
  c = '-' || c = '+' || c.isDigit || c = '.' || c = 'e' || c = 'E'

/-- The lexical literal readNumber accumulates: the longest prefix of
numeric characters from the head cursor. -/
def numLiteral (it : Iter) : List Char :=
  (it.buf.drop it.head).takeWhile numericChar

/-- Whether a literal contains a float-shaped character. -/
def hasFloatChar (cs : List Char) : Bool :=
  cs.any (fun c => c = '.' || c = 'e' || c = 'E')

/-- Whether a literal contains a minus sign. -/
def hasMinusChar (cs : List Char) : Bool :=
  cs.any (fun c => c = '-')

/-- A registry holding an override registered under the name
"jsoniter.Any" (as RegisterTypeDecoder("jsoniter.Any", fun) would). -/
def regAnyOverride : Registry :=
  fun n => if n = "jsoniter.Any" then some (.funcD 0) else none

/-- A map type with a non-text (integer) key. -/
def intKeyMapType : RType :=
  .mapT "map[int]string" (.prim "int" .kInt) (.prim "string" .kString)

/-- Whether a type's kind is pointer. -/
def RType.isPtr : RType → Bool
  | .ptr _ _ => true
  | _ => false

/-- C4: a root type whose kind is not pointer fails decoderOfType with
the InvalidTarget error ("expect ptr") and yields no decoder; a
pointer-shaped root dispatches on the pointee's shape via decoderOfPtr
(with the "ptr" breadcrumb added to any nested failure). -/
theorem decoderOfType_requires_ptr_root :
    (∀ (reg : Registry) (typ : RType), typ.isPtr = false →
        decoderOfType reg typ = .error "expect ptr") ∧
    (∀ (reg : Registry) (n : String) (e : RType),
        decoderOfType reg (.ptr n e) = addPrefixTo "ptr" (decoderOfPtr reg e)) := by
  constructor
  · intro reg typ h
    cases typ <;> simp_all [decoderOfType, RType.isPtr]
  · intro reg n e
    rfl

/-- Witness for C4 at concrete inputs: an int root is rejected, a
pointer-to-int root dispatches on the pointee. -/
theorem decoderOfType_requires_ptr_root_witness :
    decoderOfType emptyRegistry (.prim "int" .kInt) = .error "expect ptr" ∧
    decoderOfType emptyRegistry (.ptr "*int" (.prim "int" .kInt)) =
      addPrefixTo "ptr" (decoderOfPtr emptyRegistry (.prim "int" .kInt)) :=
  ⟨decoderOfType_requires_ptr_root.1 emptyRegistry (.prim "int" .kInt) rfl,
   decoderOfType_requires_ptr_root.2 emptyRegistry "*int" (.prim "int" .kInt)⟩

/-- C9: a pointee of interface kind whose name is not "jsoniter.Any"
and has no registered override compiles to the dynamic interface
decoder (it does not fail as an unsupported shape). -/
theorem decoderOfPtr_interface_supported (reg : Registry) (n : String)
    (h1 : n ≠ "jsoniter.Any") (h2 : reg n = none) :
    decoderOfPtr reg (.prim n .kInterface) = .ok .interfaceD := by
  simp [decoderOfPtr, RType.name, h1, h2]

/-- Witness for C9: the plain empty-interface type compiles to the
interface decoder under the empty registry. -/
theorem decoderOfPtr_interface_supported_witness :
    decoderOfPtr emptyRegistry (.prim "interface \x7b\x7d" .kInterface) = .ok .interfaceD :=
  decoderOfPtr_interface_supported emptyRegistry "interface \x7b\x7d"
    (by decide) rfl

/-- Counterexample for C2 as stated: with a decoder registered under
the name "jsoniter.Any", compilation of a pointee with that name still
returns the built-in Any decoder, not the registered override — the
dynamic-any name check precedes the registry lookup. -/
theorem decoderOfPtr_any_name_beats_override :
    regAnyOverride (RType.structT "jsoniter.Any").name = some (.funcD 0) ∧
    decoderOfPtr regAnyOverride (.structT "jsoniter.Any") = .ok .anyD ∧
    decoderOfPtr regAnyOverride (.structT "jsoniter.Any") ≠ .ok (.funcD 0) := by
  refine ⟨rfl, ?_, ?_⟩ <;> simp [decoderOfPtr, RType.name, regAnyOverride]

/-- C2 (amended): for every pointee whose name is NOT "jsoniter.Any", a
decoder registered under the type's name takes precedence over
shape-based dispatch; for the name "jsoniter.Any" the built-in Any
decoder always wins, even over a registered override. -/
theorem decoderOfPtr_override_precedence :
    (∀ (reg : Registry) (typ : RType) (d : DecoderV), typ.name ≠ "jsoniter.Any" →
        reg typ.name = some d → decoderOfPtr reg typ = .ok d) ∧
    (∀ (reg : Registry) (typ : RType), typ.name = "jsoniter.Any" →
        decoderOfPtr reg typ = .ok .anyD) := by
  constructor
  · intro reg typ d h1 h2
    cases typ with
    | prim n k => cases k <;> simp_all [decoderOfPtr, RType.name]
    | structT n => simp_all [decoderOfPtr, RType.name]
    | slice n e => simp_all [decoderOfPtr, RType.name]
    | mapT n k e => simp_all [decoderOfPtr, RType.name]
    | ptr n e => simp_all [decoderOfPtr, RType.name]
  · intro reg typ h
    cases typ with
    | prim n k => cases k <;> simp_all [decoderOfPtr, RType.name]
    | structT n => simp_all [decoderOfPtr, RType.name]
    | slice n e => simp_all [decoderOfPtr, RType.name]
    | mapT n k e => simp_all [decoderOfPtr, RType.name]
    | ptr n e => simp_all [decoderOfPtr, RType.name]

/-- Witness for C2 (amended): a registered override under a non-any
name wins over the string shape; the any name maps to the Any
decoder. -/
theorem decoderOfPtr_override_precedence_witness :
    decoderOfPtr regAnyOverride (.structT "jsoniter.Any") = .ok .anyD ∧
    decoderOfPtr (fun n => if n = "mypkg.T" then some (.funcD 7) else none)
      (.prim "mypkg.T" .kString) = .ok (.funcD 7) :=
  ⟨decoderOfPtr_override_precedence.2 regAnyOverride (.structT "jsoniter.Any") rfl,
   decoderOfPtr_override_precedence.1 _ (.prim "mypkg.T" .kString) (.funcD 7)
     (by decide) (by simp [RType.name])⟩


/-- Bridge: on a slice pointee that passes the name and registry
checks, decoderOfPtr computes exactly the source's call
addTo("[slice]", decoderOfSlice(typ)). -/
theorem decoderOfPtr_slice_branch (reg : Registry) (n : String) (e : RType)
    (h1 : n ≠ "jsoniter.Any") (h2 : reg n = none) :
    decoderOfPtr reg (.slice n e) =
      addPrefixTo "[slice]" (decoderOfSlice reg (.slice n e)) := by
  simp [decoderOfPtr, decoderOfSlice, typeElem, RType.name, h1, h2]

/-- Bridge: on a map pointee that passes the name and registry checks,
decoderOfPtr computes exactly the source's call
addTo("[map]", decoderOfMap(typ)). -/
theorem decoderOfPtr_map_branch (reg : Registry) (n : String) (k e : RType)
    (h1 : n ≠ "jsoniter.Any") (h2 : reg n = none) :
    decoderOfPtr reg (.mapT n k e) =
      addPrefixTo "[map]" (decoderOfMap reg (.mapT n k e)) := by
  simp [decoderOfPtr, decoderOfMap, typeElem, RType.name, h1, h2]

/-- Bridge: on a nested-pointer pointee that passes the name and
registry checks, decoderOfPtr computes exactly the source's call
addTo("[optional]", decoderOfOptional(typ.Elem())). -/
theorem decoderOfPtr_optional_branch (reg : Registry) (n : String) (e : RType)
    (h1 : n ≠ "jsoniter.Any") (h2 : reg n = none) :
    decoderOfPtr reg (.ptr n e) =
      addPrefixTo "[optional]" (decoderOfOptional reg e) := by
  simp [decoderOfPtr, decoderOfOptional, RType.name, h1, h2]

/-- Counterexample for C3 as stated: a map shape with an integer
(non-text) key type compiles successfully — both at decoderOfMap and
through the full pointer-root compilation — instead of failing with an
UnsupportedKeyType error. -/
theorem decoderOfMap_int_key_compiles :
    decoderOfMap emptyRegistry intKeyMapType =
      .ok (.mapD intKeyMapType (.prim "string" .kString) .stringD) ∧
    decoderOfType emptyRegistry (.ptr "*map[int]string" intKeyMapType) =
      .ok (.mapD intKeyMapType (.prim "string" .kString) .stringD) :=
  ⟨rfl, rfl⟩

/-- C3 (amended): compilation of a map shape never inspects the key
type: it compiles the value decoder (keys are always treated as text at
decode time) and wraps it in a map decoder, succeeding exactly when the
value decoder compiles, whatever the key type; no UnsupportedKeyType
failure exists. -/
theorem decoderOfMap_ignores_key :
    (∀ (reg : Registry) (n : String) (k e : RType) (d : DecoderV),
        decoderOfPtr reg e = .ok d →
        decoderOfMap reg (.mapT n k e) = .ok (.mapD (.mapT n k e) e d)) ∧
    (∀ (reg : Registry) (n : String) (k e : RType) (err : String),
        decoderOfPtr reg e = .error err →
        decoderOfMap reg (.mapT n k e) = .error err) := by
  constructor
  · intro reg n k e d h
    simp [decoderOfMap, typeElem, h]
  · intro reg n k e err h
    simp [decoderOfMap, typeElem, h]

/-- Witness for C3 (amended): with a string value type the int-keyed
map compiles to a map decoder; with a chan value type it fails with the
value decoder's unsupported-type error, not a key error. -/
theorem decoderOfMap_ignores_key_witness :
    decoderOfMap emptyRegistry intKeyMapType =
      .ok (.mapD intKeyMapType (.prim "string" .kString) .stringD) ∧
    decoderOfMap emptyRegistry
        (.mapT "map[int]chan int" (.prim "int" .kInt) (.prim "chan int" .kChan)) =
      .error "unsupported type: chan int" :=
  ⟨decoderOfMap_ignores_key.1 emptyRegistry "map[int]string" (.prim "int" .kInt)
      (.prim "string" .kString) .stringD rfl,
   decoderOfMap_ignores_key.2 emptyRegistry "map[int]chan int" (.prim "int" .kInt)
      (.prim "chan int" .kChan) "unsupported type: chan int" rfl⟩

/-- C5: the optional decoder, for every wrapped value decoder and
target state: a null token writes nil at the target (and runs no value
decode); a non-null token with a nil stored pointer allocates a fresh
address, decodes into it and stores it (bumping the allocator); a
non-null token with a populated pointer decodes in place at the stored
address, leaving the stored address and the allocator unchanged. -/
theorem optionalDecode_cases :
    (∀ (vd : Nat → Iter → Iter) (st : OptState) (it it1 : Iter),
        readNil it = (true, it1) →
        optionalDecode vd st it = ({ st with cell := none }, it1)) ∧
    (∀ (vd : Nat → Iter → Iter) (st : OptState) (it it1 : Iter),
        readNil it = (false, it1) → st.cell = none →
        optionalDecode vd st it =
          ({ cell := some st.nextAddr, nextAddr := st.nextAddr + 1 },
           vd st.nextAddr it1)) ∧
    (∀ (vd : Nat → Iter → Iter) (st : OptState) (it it1 : Iter) (a : Nat),
        readNil it = (false, it1) → st.cell = some a →
        optionalDecode vd st it = (st, vd a it1)) := by
  refine ⟨?_, ?_, ?_⟩
  · intro vd st it it1 h
    simp [optionalDecode, h]
  · intro vd st it it1 h hc
    simp [optionalDecode, h, hc]
  · intro vd st it it1 a h hc
    simp [optionalDecode, h, hc]

/-- Witness for C5 at concrete inputs: a null token clears the cell; a
number token with an empty cell allocates address 0 and stores it; a
number token with a populated cell decodes in place at the stored
address. -/
theorem optionalDecode_cases_witness :
    optionalDecode (fun _ i => i) { cell := some 5, nextAddr := 6 } (mkIter "null") =
      ({ cell := none, nextAddr := 6 },
       { buf := "null".data, head := 4, error := none }) ∧
    optionalDecode (fun _ i => i) { cell := none, nextAddr := 0 } (mkIter "1") =
      ({ cell := some 0, nextAddr := 1 }, mkIter "1") ∧
    optionalDecode (fun _ i => i) { cell := some 5, nextAddr := 6 } (mkIter "1") =
      ({ cell := some 5, nextAddr := 6 }, mkIter "1") :=
  ⟨optionalDecode_cases.1 (fun _ i => i) { cell := some 5, nextAddr := 6 } (mkIter "null") _ rfl,
   optionalDecode_cases.2.1 (fun _ i => i) { cell := none, nextAddr := 0 } (mkIter "1") _ rfl rfl,
   optionalDecode_cases.2.2 (fun _ i => i) { cell := some 5, nextAddr := 6 } (mkIter "1") _ 5 rfl rfl⟩

theorem mapLookup_mapAssign_self {α β : Type} [DecidableEq α]
    (m : List (α × β)) (k : α) (v : β) :
    mapLookup (mapAssign m k v) k = some v := by
  induction m with
  | nil => simp [mapAssign, mapLookup]
  | cons p rest ih =>
    obtain ⟨k2, v2⟩ := p
    by_cases h : k2 = k <;> simp [mapAssign, mapLookup, h, ih]

theorem mapLookup_mapAssign_ne {α β : Type} [DecidableEq α]
    (m : List (α × β)) (k : α) (v : β) (k2 : α) (h : k2 ≠ k) :
    mapLookup (mapAssign m k v) k2 = mapLookup m k2 := by
  induction m with
  | nil => simp [mapAssign, mapLookup, Ne.symm h]
  | cons p rest ih =>
    obtain ⟨k3, v3⟩ := p
    by_cases h3 : k3 = k
    · subst h3
      simp [mapAssign, mapLookup, Ne.symm h]
    · simp [mapAssign, mapLookup, h3, ih]

theorem mapLookup_eq_none_of_not_mem {α β : Type} [DecidableEq α]
    (m : List (α × β)) (k : α) (h : k ∉ m.map Prod.fst) :
    mapLookup m k = none := by
  induction m with
  | nil => simp [mapLookup]
  | cons p rest ih =>
    obtain ⟨k2, v2⟩ := p
    simp only [List.map_cons, List.mem_cons] at h
    push_neg at h
    simp [mapLookup, Ne.symm h.1, ih h.2]

theorem foldl_mapAssign_lookup {α β : Type} [DecidableEq α]
    (l : List (α × β)) (acc : List (α × β)) (k : α)
    (hnd : (l.map Prod.fst).Nodup) :
    mapLookup (l.foldl (fun a p => mapAssign a p.1 p.2) acc) k =
      (match mapLookup l k with
       | some v => some v
       | none => mapLookup acc k) := by
  induction l generalizing acc with
  | nil => simp [mapLookup]
  | cons p rest ih =>
    obtain ⟨k1, v1⟩ := p
    simp only [List.map_cons, List.nodup_cons] at hnd
    by_cases h : k1 = k
    · subst h
      have hnone : mapLookup rest k1 = none :=
        mapLookup_eq_none_of_not_mem rest k1 hnd.1
      simp [List.foldl_cons, ih _ hnd.2, mapLookup, hnone,
        mapLookup_mapAssign_self]
    · simp [List.foldl_cons, ih _ hnd.2, mapLookup, h,
        mapLookup_mapAssign_ne _ _ _ _ (fun e => h e.symm)]

theorem copyMap_lookup (m : List (RType × DecoderV)) (k : RType)
    (hnd : (m.map Prod.fst).Nodup) :
    mapLookup (copyMap m) k = mapLookup m k := by
  rw [copyMap, foldl_mapAssign_lookup m [] k hnd]
  cases mapLookup m k <;> simp [mapLookup]

/-- C6: addDecoderToCache builds a fresh mapping equal to the current
snapshot plus the new entry and swaps the pointer to it: afterwards the
inserted type resolves to the inserted decoder, every other type
resolves exactly as before, and every previously allocated snapshot
(in particular the previous current one) is left unchanged in the
heap. -/
theorem addDecoderToCache_cow (w : CacheWorld) (k : RType) (d : DecoderV)
    (hnd : ((currentCache w).map Prod.fst).Nodup) :
    getDecoderFromCache (addDecoderToCache w k d) k = some d ∧
    (∀ k2, k2 ≠ k →
        getDecoderFromCache (addDecoderToCache w k d) k2 =
          getDecoderFromCache w k2) ∧
    (∀ i, i < w.heap.length →
        (addDecoderToCache w k d).heap.getD i [] = w.heap.getD i []) := by
  have hcur : currentCache (addDecoderToCache w k d) =
      mapAssign (copyMap (currentCache w)) k d := by
    simp [addDecoderToCache, currentCache, List.getD]
  refine ⟨?_, ?_, ?_⟩
  · rw [getDecoderFromCache, hcur, mapLookup_mapAssign_self]
  · intro k2 h2
    rw [getDecoderFromCache, hcur, mapLookup_mapAssign_ne _ _ _ _ h2,
      copyMap_lookup _ _ hnd, getDecoderFromCache]
  · intro i hi
    simp [addDecoderToCache, List.getD, List.getElem?_append, hi]

/-- Witness for C6 at a concrete cache state: inserting a bool decoder
leaves the cached int decoder visible, and the previously allocated
snapshot map is unchanged. -/
theorem addDecoderToCache_cow_witness :
    getDecoderFromCache
        (addDecoderToCache
          { heap := [[(.prim "int" .kInt, .intD)]], ptrIdx := 0 }
          (.prim "bool" .kBool) .boolD)
        (.prim "bool" .kBool) = some .boolD ∧
    getDecoderFromCache
        (addDecoderToCache
          { heap := [[(.prim "int" .kInt, .intD)]], ptrIdx := 0 }
          (.prim "bool" .kBool) .boolD)
        (.prim "int" .kInt) =
      getDecoderFromCache { heap := [[(.prim "int" .kInt, .intD)]], ptrIdx := 0 }
        (.prim "int" .kInt) ∧
    (addDecoderToCache
        { heap := [[(.prim "int" .kInt, .intD)]], ptrIdx := 0 }
        (.prim "bool" .kBool) .boolD).heap.getD 0 [] =
      ({ heap := [[(.prim "int" .kInt, .intD)]], ptrIdx := 0 } : CacheWorld).heap.getD 0 [] :=
  ⟨(addDecoderToCache_cow _ _ _ (by decide)).1,
   (addDecoderToCache_cow _ _ _ (by decide)).2.1 _ (by decide),
   (addDecoderToCache_cow _ _ _ (by decide)).2.2 0 (by decide)⟩

/-- C7: when compilation fails inside Iterator.Read (cache miss and
decoderOfType error), the error is written to the iterator's error
slot, the cache world is returned exactly as it was (nothing is
inserted), and a second Read for the same type runs the compiler again
and fails the same way instead of finding a cached decoder. -/
theorem iterRead_compile_error_not_cached (reg : Registry)
    (exec : DecoderV → Iter → Iter) (w : CacheWorld) (typ : RType) (it : Iter)
    (cacheKey : RType) (err : String)
    (hElem : typeElem typ = some cacheKey)
    (hMiss : getDecoderFromCache w cacheKey = none)
    (hCompile : decoderOfType reg typ = .error err) :
    iterRead reg exec w typ it = some (w, { it with error := some err }) ∧
    iterRead reg exec w typ { it with error := some err } =
      some (w, { it with error := some err }) := by
  constructor <;> simp [iterRead, hElem, hMiss, hCompile]

/-- Witness for C7: a pointer-to-channel root misses the empty cache,
fails compilation with the annotated unsupported-type error, leaves the
cache world unchanged, and fails identically on the second Read. -/
theorem iterRead_compile_error_not_cached_witness :
    iterRead emptyRegistry (fun _ i => i) { heap := [[]], ptrIdx := 0 }
        (.ptr "*chan int" (.prim "chan int" .kChan)) (mkIter "1") =
      some ({ heap := [[]], ptrIdx := 0 },
            { buf := "1".data, head := 0,
              error := some "ptr: unsupported type: chan int" }) ∧
    iterRead emptyRegistry (fun _ i => i) { heap := [[]], ptrIdx := 0 }
        (.ptr "*chan int" (.prim "chan int" .kChan))
        { buf := "1".data, head := 0,
          error := some "ptr: unsupported type: chan int" } =
      some ({ heap := [[]], ptrIdx := 0 },
            { buf := "1".data, head := 0,
              error := some "ptr: unsupported type: chan int" }) := by
  have h := iterRead_compile_error_not_cached emptyRegistry (fun _ i => i)
    { heap := [[]], ptrIdx := 0 } (.ptr "*chan int" (.prim "chan int" .kChan))
    (mkIter "1") (.prim "chan int" .kChan) "ptr: unsupported type: chan int"
    rfl rfl rfl
  exact ⟨h.1, h.2⟩

/-- C8: ReadAny dispatches on the next token's kind: an array token
enters the element loop (recursing with ReadAny per element), which
appends each element's value in document order, returns the finished
ordered sequence at the array's end, and stops consuming further
elements as soon as one element's parse leaves the error slot set; an
object token does the same per field into a text-keyed mapping; a kind
other than string, number, null, boolean, array or object reports the
unexpected-value-type error.  The last conjunct checks document order
on a concrete array. -/
theorem readAny_kind_dispatch :
    (∀ (n : Nat) (it : Iter), whatIsNext it = .vArray →
        readAny (n + 1) it = readAnyArrayLoop (readAny n) (n + 1) [] it) ∧
    (∀ (rA : Iter → Option AnyV × Iter) (fuel : Nat) (val : List AnyV)
        (it it1 : Iter) (e : Option AnyV) (it2 : Iter),
        readArray it = (true, it1) → rA it1 = (e, it2) → it2.error = none →
        readAnyArrayLoop rA (fuel + 1) val it =
          readAnyArrayLoop rA fuel (val ++ [e.getD .vNull]) it2) ∧
    (∀ (rA : Iter → Option AnyV × Iter) (fuel : Nat) (val : List AnyV)
        (it it1 : Iter),
        readArray it = (false, it1) →
        readAnyArrayLoop rA (fuel + 1) val it = (some (.vArray val), it1)) ∧
    (∀ (rA : Iter → Option AnyV × Iter) (fuel : Nat) (val : List AnyV)
        (it it1 : Iter) (e : Option AnyV) (it2 : Iter),
        readArray it = (true, it1) → rA it1 = (e, it2) → it2.error ≠ none →
        readAnyArrayLoop rA (fuel + 1) val it = (none, it2)) ∧
    (∀ (n : Nat) (it : Iter), whatIsNext it = .vObject →
        readAny (n + 1) it = readAnyObjectLoop (readAny n) (n + 1) [] it) ∧
    (∀ (rA : Iter → Option AnyV × Iter) (fuel : Nat)
        (val : List (String × AnyV)) (it : Iter) (f : String) (it1 : Iter)
        (e : Option AnyV) (it2 : Iter),
        readObject it = (f, it1) → f ≠ "" → rA it1 = (e, it2) →
        it2.error ≠ none →
        readAnyObjectLoop rA (fuel + 1) val it = (none, it2)) ∧
    (∀ (n : Nat) (it : Iter), whatIsNext it = .vInvalid →
        readAny (n + 1) it =
          (some .vNull, reportError it "ReadAny" "unexpected value type")) ∧
    (readAny 9 (mkIter "[1,2,3]")).1 =
      some (.vArray [.vUint 1, .vUint 2, .vUint 3]) := by
  refine ⟨?_, ?_, ?_, ?_, ?_, ?_, ?_, rfl⟩
  · intro n it h
    simp [readAny, h]
  · intro rA fuel val it it1 e it2 h1 h2 h3
    simp [readAnyArrayLoop, h1, h2, h3]
  · intro rA fuel val it it1 h1
    simp [readAnyArrayLoop, h1]
  · intro rA fuel val it it1 e it2 h1 h2 h3
    simp [readAnyArrayLoop, h1, h2, Option.isSome_iff_ne_none, h3]
  · intro n it h
    simp [readAny, h]
  · intro rA fuel val it f it1 e it2 h1 hf h2 h3
    simp [readAnyObjectLoop, h1, hf, h2, Option.isSome_iff_ne_none, h3]
  · intro n it h
    simp [readAny, h]

/-- Witness for C8 at concrete inputs: an array whose first element is
an invalid token stops at that element's error; an object whose first
field value is invalid does the same; a lone colon reports the
unexpected-value-type error. -/
theorem readAny_kind_dispatch_witness :
    readAnyArrayLoop (readAny 5) 3 [] (mkIter "[:]") =
      (none, { buf := "[:]".data, head := 1,
               error := some "ReadAny: unexpected value type" }) ∧
    readAnyObjectLoop (readAny 5) 3 [] (mkIter "\x7b\"a\":@\x7d") =
      (none, { buf := "\x7b\"a\":@\x7d".data, head := 5,
               error := some "ReadAny: unexpected value type" }) ∧
    readAny 7 (mkIter ":") =
      (some .vNull,
       reportError (mkIter ":") "ReadAny" "unexpected value type") :=
  ⟨readAny_kind_dispatch.2.2.2.1 (readAny 5) 2 [] (mkIter "[:]")
      { buf := "[:]".data, head := 1, error := none } (some .vNull)
      { buf := "[:]".data, head := 1,
        error := some "ReadAny: unexpected value type" } rfl rfl (by simp),
   readAny_kind_dispatch.2.2.2.2.2.1 (readAny 5) 2 [] (mkIter "\x7b\"a\":@\x7d") "a"
      { buf := "\x7b\"a\":@\x7d".data, head := 5, error := none } (some .vNull)
      { buf := "\x7b\"a\":@\x7d".data, head := 5,
        error := some "ReadAny: unexpected value type" } rfl (by decide) rfl
      (by simp),
   readAny_kind_dispatch.2.2.2.2.2.2.1 6 (mkIter ":") rfl⟩

/-- C10: whenever a nested element or field parse inside ReadAny's
array or object loop leaves the error slot set, the loop returns the
nil Any pointer (none) — never a partially built sequence or mapping —
while the unexpected-kind branch returns a non-nil null Any together
with the reported error. -/
theorem readAny_nested_error_returns_nil :
    (∀ (rA : Iter → Option AnyV × Iter) (fuel : Nat) (val : List AnyV)
        (it it1 : Iter) (e : Option AnyV) (it2 : Iter),
        readArray it = (true, it1) → rA it1 = (e, it2) → it2.error ≠ none →
        (readAnyArrayLoop rA (fuel + 1) val it).1 = none) ∧
    (∀ (rA : Iter → Option AnyV × Iter) (fuel : Nat)
        (val : List (String × AnyV)) (it : Iter) (f : String) (it1 : Iter)
        (e : Option AnyV) (it2 : Iter),
        readObject it = (f, it1) → f ≠ "" → rA it1 = (e, it2) →
        it2.error ≠ none →
        (readAnyObjectLoop rA (fuel + 1) val it).1 = none) ∧
    (∀ (n : Nat) (it : Iter), whatIsNext it = .vInvalid →
        (readAny (n + 1) it).1 = some .vNull ∧
        (readAny (n + 1) it).2.error ≠ none) := by
  refine ⟨?_, ?_, ?_⟩
  · intro rA fuel val it it1 e it2 h1 h2 h3
    simp [readAnyArrayLoop, h1, h2, Option.isSome_iff_ne_none, h3]
  · intro rA fuel val it f it1 e it2 h1 hf h2 h3
    simp [readAnyObjectLoop, h1, hf, h2, Option.isSome_iff_ne_none, h3]
  · intro n it h
    refine ⟨by simp [readAny, h], ?_⟩
    simp only [readAny, h, reportError]
    cases he : it.error <;> simp [he]

/-- Witness for C10 at concrete inputs: the failing-element array and
object loops return the nil Any pointer, and the lone-colon parse
returns a non-nil null Any with the error slot set. -/
theorem readAny_nested_error_returns_nil_witness :
    (readAnyArrayLoop (readAny 4) 2 [.vUint 7] (mkIter "[:]")).1 = none ∧
    (readAnyObjectLoop (readAny 4) 2 [("z", .vUint 7)] (mkIter "\x7b\"a\":@\x7d")).1 = none ∧
    ((readAny 4 (mkIter ":")).1 = some .vNull ∧
     (readAny 4 (mkIter ":")).2.error ≠ none) :=
  ⟨readAny_nested_error_returns_nil.1 (readAny 4) 1 [.vUint 7] (mkIter "[:]")
      { buf := "[:]".data, head := 1, error := none } (some .vNull)
      { buf := "[:]".data, head := 1,
        error := some "ReadAny: unexpected value type" } rfl rfl (by simp),
   readAny_nested_error_returns_nil.2.1 (readAny 4) 1 [("z", .vUint 7)]
      (mkIter "\x7b\"a\":@\x7d") "a"
      { buf := "\x7b\"a\":@\x7d".data, head := 5, error := none } (some .vNull)
      { buf := "\x7b\"a\":@\x7d".data, head := 5,
        error := some "ReadAny: unexpected value type" } rfl (by decide) rfl
      (by simp),
   readAny_nested_error_returns_nil.2.2 3 (mkIter ":") rfl⟩

theorem scanNumLoop_step (c : Char) (rest : List Char) (i : Nat)
    (str : List Char) (ff fn : Bool) :
    scanNumLoop (c :: rest) i str ff fn =
      (if numericChar c then
        scanNumLoop rest (i + 1) (str ++ [c])
          (ff || (c = '.' || c = 'e' || c = 'E')) (fn || (c = '-'))
      else (str, ff, fn, i, true)) := by
  by_cases h1 : c = '-'
  · subst h1
    simp [scanNumLoop, numericChar]
  · by_cases h2 : c = '+' ∨ c.isDigit
    · have hf : (c = '.' || c = 'e' || c = 'E') = false := by
        rcases h2 with h | h
        · subst h; decide
        · simp only [Bool.or_eq_false_iff, decide_eq_false_iff_not]
          refine ⟨⟨?_, ?_⟩, ?_⟩ <;> rintro rfl <;> exact absurd h (by decide)
      have hnum : numericChar c = true := by
        rcases h2 with h | h <;> simp [numericChar, h]
      simp [scanNumLoop, h1, h2, hnum, hf]
    · by_cases h3 : c = '.' ∨ c = 'e' ∨ c = 'E'
      · have hnum : numericChar c = true := by
          rcases h3 with h | h | h <;> simp [numericChar, h]
        have hf : (c = '.' || c = 'e' || c = 'E') = true := by
          rcases h3 with h | h | h <;> simp [h]
        simp [scanNumLoop, h1, h2, h3, hnum, hf]
      · have hd : c.isDigit = false := by
          cases hcd : c.isDigit
          · rfl
          · exact absurd (Or.inr hcd) h2
        have hp : c ≠ '+' := fun e => h2 (Or.inl e)
        have hdot : c ≠ '.' := fun e => h3 (Or.inl e)
        have he : c ≠ 'e' := fun e => h3 (Or.inr (Or.inl e))
        have hE : c ≠ 'E' := fun e => h3 (Or.inr (Or.inr e))
        have hnum : numericChar c = false := by
          simp [numericChar, h1, hp, hd, hdot, he, hE]
        simp [scanNumLoop, h1, h2, h3, hnum]

theorem scanNumLoop_spec (cs : List Char) (i : Nat) (str : List Char)
    (ff fn : Bool) :
    scanNumLoop cs i str ff fn =
      (str ++ cs.takeWhile numericChar,
       ff || hasFloatChar (cs.takeWhile numericChar),
       fn || hasMinusChar (cs.takeWhile numericChar),
       i + (cs.takeWhile numericChar).length,
       !(cs.dropWhile numericChar).isEmpty) := by
  induction cs generalizing i str ff fn with
  | nil => simp [scanNumLoop, hasFloatChar, hasMinusChar]
  | cons c rest ih =>
    rw [scanNumLoop_step]
    by_cases hnum : numericChar c
    · rw [if_pos hnum, ih]
      simp [List.takeWhile_cons, List.dropWhile_cons, hnum, hasFloatChar,
        hasMinusChar, Bool.or_assoc]
      omega
    · rw [if_neg hnum]
      simp [List.takeWhile_cons, List.dropWhile_cons, hnum, hasFloatChar,
        hasMinusChar]

theorem readNumber_unfold (it : Iter) (h : it.error = none) :
    readNumber it =
      (let cs := numLiteral it
       let it1 := if ((it.buf.drop it.head).dropWhile numericChar).isEmpty
                  then { it with error := some "EOF" }
                  else { it with head := it.head + cs.length }
       if hasFloatChar cs then
         match parseFloat64 (String.mk cs) with
         | .error e => (none, { it1 with error := some e })
         | .ok v => (some (.vFloat v), it1)
       else if hasMinusChar cs then
         match parseInt64 (String.mk cs) with
         | .error e => (none, { it1 with error := some e })
         | .ok v => (some (.vInt v), it1)
       else
         match parseUint64 (String.mk cs) with
         | .error e => (none, { it1 with error := some e })
         | .ok v => (some (.vUint v), it1)) := by
  simp only [readNumber, scanNumLoop_spec, List.nil_append, Bool.false_or,
    numLiteral]
  cases hE : ((it.buf.drop it.head).dropWhile numericChar).isEmpty <;>
    simp [hE, loadMore, h]

/-- C1: readNumber classifies each accumulated literal once, purely
lexically: a literal containing '.', 'e' or 'E' is parsed with the
64-bit float parser into a float Any; otherwise one containing '-' is
parsed with the 64-bit signed parser into a signed Any; otherwise the
64-bit unsigned parser produces an unsigned Any; a failure of the
chosen parser is written to the iterator's error slot (with a nil Any
returned).  Concretely, "-42" yields signed -42, "42" yields unsigned
42, and "1.5" yields float 3/2 = 1.5. -/
theorem readNumber_lexical_classification :
    (∀ (it : Iter) (v : ℚ), it.error = none →
        hasFloatChar (numLiteral it) = true →
        parseFloat64 (String.mk (numLiteral it)) = .ok v →
        (readNumber it).1 = some (.vFloat v)) ∧
    (∀ (it : Iter) (e : String), it.error = none →
        hasFloatChar (numLiteral it) = true →
        parseFloat64 (String.mk (numLiteral it)) = .error e →
        (readNumber it).1 = none ∧ (readNumber it).2.error = some e) ∧
    (∀ (it : Iter) (v : Int), it.error = none →
        hasFloatChar (numLiteral it) = false →
        hasMinusChar (numLiteral it) = true →
        parseInt64 (String.mk (numLiteral it)) = .ok v →
        (readNumber it).1 = some (.vInt v)) ∧
    (∀ (it : Iter) (e : String), it.error = none →
        hasFloatChar (numLiteral it) = false →
        hasMinusChar (numLiteral it) = true →
        parseInt64 (String.mk (numLiteral it)) = .error e →
        (readNumber it).1 = none ∧ (readNumber it).2.error = some e) ∧
    (∀ (it : Iter) (v : Nat), it.error = none →
        hasFloatChar (numLiteral it) = false →
        hasMinusChar (numLiteral it) = false →
        parseUint64 (String.mk (numLiteral it)) = .ok v →
        (readNumber it).1 = some (.vUint v)) ∧
    (∀ (it : Iter) (e : String), it.error = none →
        hasFloatChar (numLiteral it) = false →
        hasMinusChar (numLiteral it) = false →
        parseUint64 (String.mk (numLiteral it)) = .error e →
        (readNumber it).1 = none ∧ (readNumber it).2.error = some e) ∧
    (readNumber (mkIter "-42")).1 = some (.vInt (-42)) ∧
    (readNumber (mkIter "42")).1 = some (.vUint 42) ∧
    (∃ q : ℚ, (readNumber (mkIter "1.5")).1 = some (.vFloat q) ∧ q = 3 / 2) := by
  refine ⟨?_, ?_, ?_, ?_, ?_, ?_, rfl, rfl,
    ⟨((15 : Int) : ℚ) / (10 : ℚ) ^ (1 : Nat), rfl, by norm_num⟩⟩
  · intro it v h hf hp
    rw [readNumber_unfold it h]
    simp [hf, hp]
  · intro it e h hf hp
    rw [readNumber_unfold it h]
    simp only [hf, hp]
    cases hE : ((it.buf.drop it.head).dropWhile numericChar).isEmpty <;> simp [hE]
  · intro it v h hf hm hp
    rw [readNumber_unfold it h]
    simp [hf, hm, hp]
  · intro it e h hf hm hp
    rw [readNumber_unfold it h]
    simp only [hf, hm, hp]
    cases hE : ((it.buf.drop it.head).dropWhile numericChar).isEmpty <;> simp [hE]
  · intro it v h hf hm hp
    rw [readNumber_unfold it h]
    simp [hf, hm, hp]
  · intro it e h hf hm hp
    rw [readNumber_unfold it h]
    simp only [hf, hm, hp]
    cases hE : ((it.buf.drop it.head).dropWhile numericChar).isEmpty <;> simp [hE]

/-- Witness for C1 at concrete inputs: "7" is classified unsigned and
parses to 7; "1.5e" is classified float and the float parser's failure
is written to the error slot with a nil Any returned. -/
theorem readNumber_lexical_classification_witness :
    (readNumber (mkIter "7")).1 = some (.vUint 7) ∧
    ((readNumber (mkIter "1.5e")).1 = none ∧
     (readNumber (mkIter "1.5e")).2.error =
       some "strconv.ParseFloat: invalid syntax") :=
  ⟨readNumber_lexical_classification.2.2.2.2.1 (mkIter "7") 7 rfl rfl rfl rfl,
   readNumber_lexical_classification.2.1 (mkIter "1.5e")
     "strconv.ParseFloat: invalid syntax" rfl rfl rfl⟩
